import Mathlib

/-!
Verification of the notification dispatcher in `src/bin/send_email.py`.

The Python module is embedded shallowly:

* A Python annotations dictionary (string keys, list-of-values entries,
  insertion-ordered, keys unique) is an association list
  `AnnDict := List (String × List String)`; annotation values are kept in
  their rendered (string) form, which is all the code ever uses of them.
* Exceptions are `Except PyErr`; `PyErr.typeError`, `indexError` and
  `keyError` stand for the built-in Python exception classes,
  `valueError` for `ValueError`, and `clientError` for any failure raised
  inside the remote Synapse client.
* The remote Synapse service (`synapseclient`) is a record of response
  functions `SynapseService`; `getSubmissionStatus` returns the
  `submissionAnnotations` dictionary of the submission status record (the
  `["submissionAnnotations"]` access is folded into the service response).
* Every external call made by `send_email` is recorded in a trace of
  `Event`s, tagged with the pipeline `Step` whose code performs the call,
  so that call order and delivered messages are observable.
-/

inductive PyErr where
  | typeError
  | indexError
  | keyError
  | valueError (msg : String)
  | clientError (msg : String)
  deriving DecidableEq, Repr

abbrev AnnDict := List (String × List String)

/-- `d.get(k)` on a Python dict: the value of the first matching key, if any. -/
def dictGet (d : AnnDict) (k : String) : Option (List String) :=
  (d.find? (fun kv => kv.1 == k)).map Prod.snd

/-- Lookup in a string-to-string dict (used for `EVAL_TO_LINK`). -/
def lookupStr (d : List (String × String)) (k : String) : Option String :=
  (d.find? (fun kv => kv.1 == k)).map Prod.snd

/-- `x[0]` applied to the result of `d.get(k)`: `None` is not subscriptable
(`TypeError`), an empty list gives `IndexError`. -/
def pyIndex0 : Option (List String) → Except PyErr String
  | none => Except.error PyErr.typeError
  | some [] => Except.error PyErr.indexError
  | some (v :: _) => Except.ok v

/-- Rendering of an optional string in an f-string: Python prints `None`. -/
def pyStr : Option String → String
  | some s => s
  | none => "None"

/-- Python `a or b` over `.get` results: `None` and the empty string are
falsy, everything else truthy. -/
def pyOr (a b : Option String) : Option String :=
  match a with
  | some s => if s = "" then b else some s
  | none => b

/-- A Submission record, as accessed by the code via `.get`. -/
structure SubmissionRecord where
  teamId : Option String
  userId : Option String
  evaluationId : Option String
  deriving DecidableEq, Repr

/-- An Evaluation record, as accessed by the code via `.get`. -/
structure EvalRecord where
  name : Option String
  contentSource : Option String
  deriving DecidableEq, Repr

/-- The `SubmissionAnnotations` named tuple of the source.  (The source
annotates `score : List[int]`, but the value actually stored is the
dictionary of non-reserved annotations, so the field is an `AnnDict`.) -/
structure SubmissionAnnotations where
  status : String
  score : AnnDict
  reason : String
  deriving DecidableEq, Repr

/-- The pipeline step whose code performs an external call. -/
inductive Step where
  | annotations
  | participant
  | evaluation
  | link
  | render
  | send
  deriving DecidableEq, Repr

/-- The external calls (and the one `print`) the module can make. -/
inductive Call where
  | getSubmissionStatus (submissionId : String)
  | getSubmission (submissionId : String)
  | getEvaluation (evalId : Option String)
  | printLog (msg : String)
  | sendMessage (userIds : List (Option String)) (subject : String) (body : String)
  deriving DecidableEq, Repr

/-- One observable event: a call, tagged with the step issuing it. -/
structure Event where
  step : Step
  call : Call
  deriving DecidableEq, Repr

/-- The remote Synapse service, as a record of (arbitrary) responses. -/
structure SynapseService where
  getSubmission : String → Except PyErr SubmissionRecord
  getSubmissionStatus : String → Except PyErr AnnDict
  getEvaluation : Option String → Except PyErr EvalRecord
  sendMessage : List (Option String) → String → String → Except PyErr Unit

/-- Rendering of a caught exception in the f-string of the log message. -/
def errStr : PyErr → String
  | PyErr.typeError => "TypeError"
  | PyErr.indexError => "IndexError"
  | PyErr.keyError => "KeyError"
  | PyErr.valueError m => "ValueError: " ++ m
  | PyErr.clientError m => m

/-- `get_participant_id(syn, submission_id)`: fetches the Submission and
returns `[submission.get("teamId") or submission.get("userId")]`. -/
def get_participant_id (syn : SynapseService) (submission_id : String) :
    List Event × Except PyErr (List (Option String)) :=
  ([⟨Step.participant, Call.getSubmission submission_id⟩],
   (syn.getSubmission submission_id).map
     (fun submission => [pyOr submission.teamId submission.userId]))

/-- `get_score_dict(score)`: starts from `[""]` and appends one
`f"{key} : {score[key][0]}" + "\n"` string per key of `score`.  The result
is a Python *list* of strings, not a joined string. -/
def get_score_dict (score : AnnDict) : Except PyErr (List String) :=
  (score.map Prod.fst).foldlM
    (fun strings key =>
      match dictGet score key with
      | none => Except.error PyErr.keyError
      | some [] => Except.error PyErr.indexError
      | some (v :: _) => Except.ok (strings ++ [key ++ " : " ++ v ++ "\n"]))
    [""]

/-- `email_template(status, email_with_score, submission_id, target_link,
score, reason)`.  The source builds the four-entry `templates` dict literal
*before* the `(status, email_with_score)` lookup, and building it evaluates
all four values eagerly.  The `("VALIDATED", "yes")` value computes
`f"Submission ... scores:\n" + get_score_dict(score)`, adding a `str` to the
`list` returned by `get_score_dict` — which raises `TypeError` (after
`get_score_dict` itself runs, which can raise first on a malformed score
dict).  So the function always raises; the `templates.get` lookup and the
`ValueError` branch for unmatched pairs are unreachable. -/
def email_template (status : String) (email_with_score : String)
    (submission_id : String) (target_link : String) (score : AnnDict)
    (reason : String) : Except PyErr String :=
  match get_score_dict score with
  | Except.error e => Except.error e
  | Except.ok _strings => Except.error PyErr.typeError

/-- The reserved annotation keys excluded from the score dictionary
(`non_score_annotations` in the source). -/
def nonScoreKeys : List String :=
  ["score_errors", "score_status", "validation_errors", "validation_status"]

/-- The dict comprehension of `get_annotations`:
`{key: submission_annotations.get(key) for key in submission_annotations.keys()
  if key not in non_score_annotations}`. -/
def submission_scores (submission_annotations : AnnDict) : AnnDict :=
  (submission_annotations.map Prod.fst).filterMap
    (fun key =>
      if nonScoreKeys.contains key then none
      else (dictGet submission_annotations key).map (fun v => (key, v)))

/-- The pure part of `get_annotations`, applied to the
`submissionAnnotations` dictionary fetched from the service. -/
def annotations_of (submission_annotations : AnnDict) :
    Except PyErr SubmissionAnnotations := do
  let submission_status ← pyIndex0 (dictGet submission_annotations "validation_status")
  let error_reason ← pyIndex0 (dictGet submission_annotations "validation_errors")
  Except.ok
    { status := submission_status
      score := submission_scores submission_annotations
      reason := error_reason }

/-- `get_annotations(syn, submission_id)`: one `getSubmissionStatus` call,
then the pure extraction `annotations_of`. -/
def get_annotations (syn : SynapseService) (submission_id : String) :
    List Event × Except PyErr SubmissionAnnotations :=
  ([⟨Step.annotations, Call.getSubmissionStatus submission_id⟩],
   (syn.getSubmissionStatus submission_id).bind annotations_of)

/-- The body of the `try` block of `get_evaluation`: submission →
evaluation id → evaluation name. -/
def evaluation_chain (syn : SynapseService) (submission_id : String) :
    List Event × Except PyErr (Option String × Option String) :=
  match syn.getSubmission submission_id with
  | Except.error e =>
      ([⟨Step.evaluation, Call.getSubmission submission_id⟩], Except.error e)
  | Except.ok submission =>
      let eval_id := submission.evaluationId
      ([⟨Step.evaluation, Call.getSubmission submission_id⟩,
        ⟨Step.evaluation, Call.getEvaluation eval_id⟩],
       (syn.getEvaluation eval_id).map (fun ev => (eval_id, ev.name)))

/-- The message printed by the `except` clause of `get_evaluation`. -/
def evalLogMsg (submission_id : String) (e : PyErr) : String :=
  "An error occurred while retrieving the evaluation for submission " ++
    submission_id ++ ": " ++ errStr e

/-- `get_evaluation(syn, submission_id)`: runs the lookup chain inside
`try`; on any exception it prints a message and falls off the end of the
function, returning `None`. -/
def get_evaluation (syn : SynapseService) (submission_id : String) :
    List Event × Option (Option String × Option String) :=
  match evaluation_chain syn submission_id with
  | (t, Except.ok r) => (t, some r)
  | (t, Except.error e) =>
      (t ++ [⟨Step.evaluation, Call.printLog (evalLogMsg submission_id e)⟩], none)

/-- The static `EVAL_TO_LINK` table of `get_target_link`. -/
def EVAL_TO_LINK : List (String × String) :=
  [("9615379", "https://www.synapse.org/#!Synapse:syn52052735/wiki/626195"),
   ("9615532", "https://www.synapse.org/#!Synapse:syn52052735/wiki/626203"),
   ("9615534", "https://www.synapse.org/#!Synapse:syn52052735/wiki/626211"),
   ("9615535", "https://www.synapse.org/#!Synapse:syn52052735/wiki/626216")]

/-- `get_target_link(synapse_client, eval_id)`: table lookup, else fetch the
evaluation and synthesize the link from its `contentSource`.  `eval_id` is
`Option String` because `send_email` can pass it the `None` produced by a
failed `get_evaluation` (Python `None in EVAL_TO_LINK` is simply `False`). -/
def get_target_link (synapse_client : SynapseService) (eval_id : Option String) :
    List Event × Except PyErr String :=
  match eval_id.bind (lookupStr EVAL_TO_LINK) with
  | some link => ([], Except.ok link)
  | none =>
      ([⟨Step.link, Call.getEvaluation eval_id⟩],
       (synapse_client.getEvaluation eval_id).map
         (fun ev => "https://www.synapse.org/#!Synapse:" ++ pyStr ev.contentSource))

/-- `send_email(view_id, submission_id, email_with_score)`: the five-step
pipeline, returning the trace of external calls together with the outcome.
An exception raised at any step aborts the rest (Python propagation);
`get_evaluation`'s `None` makes the tuple unpacking
`eval_id, eval_name = get_evaluation(...)` raise `TypeError`. -/
def send_email (syn : SynapseService) (view_id : String)
    (submission_id : String) (email_with_score : String) :
    List Event × Except PyErr Unit :=
  let annStep := get_annotations syn submission_id
  match annStep.2 with
  | Except.error e => (annStep.1, Except.error e)
  | Except.ok submission_annotations =>
    let partStep := get_participant_id syn submission_id
    let t1 := annStep.1 ++ partStep.1
    match partStep.2 with
    | Except.error e => (t1, Except.error e)
    | Except.ok ids_to_notify =>
      let evalStep := get_evaluation syn submission_id
      let t2 := t1 ++ evalStep.1
      match evalStep.2 with
      | none => (t2, Except.error PyErr.typeError)
      | some (eval_id, eval_name) =>
        let linkStep := get_target_link syn eval_id
        let t3 := t2 ++ linkStep.1
        match linkStep.2 with
        | Except.error e => (t3, Except.error e)
        | Except.ok target_link =>
          let subject :=
            if submission_annotations.status = "VALIDATED" then
              "Submission to \x27" ++ pyStr eval_name ++ "\x27 Success: " ++ submission_id
            else
              "Submission to \x27" ++ pyStr eval_name ++ "\x27 Failed: " ++ submission_id
          match email_template submission_annotations.status email_with_score
              submission_id target_link submission_annotations.score
              submission_annotations.reason with
          | Except.error e => (t3, Except.error e)
          | Except.ok body =>
            (t3 ++ [⟨Step.send, Call.sendMessage ids_to_notify subject body⟩],
             syn.sendMessage ids_to_notify subject body)

/-- C1: For every one of the four valid `(status, emailWithScore)` pairs,
`email_template` is claimed to return the literal body for that pair.  In
fact the function raises `TypeError` on all four of them: the `templates`
dict literal is evaluated eagerly and its `("VALIDATED", "yes")` entry adds
the f-string (a `str`) to the list returned by `get_score_dict`. -/
theorem email_template_raises_on_every_valid_pair :
    email_template "VALIDATED" "yes" "9741046" "https://www.synapse.org/#!Synapse:syn123"
        [("auc", ["0.91"])] "" = Except.error PyErr.typeError ∧
    email_template "VALIDATED" "no" "9741046" "https://www.synapse.org/#!Synapse:syn123"
        [("auc", ["0.91"])] "" = Except.error PyErr.typeError ∧
    email_template "INVALID" "yes" "9741046" "https://www.synapse.org/#!Synapse:syn123"
        [] "missing column X" = Except.error PyErr.typeError ∧
    email_template "INVALID" "no" "9741046" "https://www.synapse.org/#!Synapse:syn123"
        [] "missing column X" = Except.error PyErr.typeError :=
  ⟨rfl, rfl, rfl, rfl⟩

/-- C2: For a pair outside the four valid combinations, `email_template` is
claimed to raise `ValueError` — and to raise only then.  In fact it raises
`TypeError` (not `ValueError`) on the invalid pair, because the `str + list`
concatenation inside the `templates` dict literal fires before the pair is
even looked up; and it equally raises on a valid pair, so the raise is not
confined to unmatched pairs. -/
theorem email_template_typeerror_before_pair_check :
    email_template "SCORED" "maybe" "9741046" "https://www.synapse.org/#!Synapse:syn123"
        [] "" = Except.error PyErr.typeError ∧
    email_template "VALIDATED" "no" "9741046" "https://www.synapse.org/#!Synapse:syn123"
        [] "" = Except.error PyErr.typeError :=
  ⟨rfl, rfl⟩

/-- C3: The score section is claimed to be a newline-joined list of
`"<metric> : <value>"` lines inside the `("VALIDATED", "yes")` body.  In
fact `get_score_dict` builds a Python *list* — a leading empty string, then
one string per metric each carrying its own trailing newline — and the body
construction `f"..." + get_score_dict(score)` raises `TypeError`, so no
body containing a score listing is ever produced. -/
theorem get_score_dict_is_a_list_and_body_raises :
    get_score_dict [("auc", ["0.91"]), ("f1", ["0.8"])] =
      Except.ok ["", "auc : 0.91\n", "f1 : 0.8\n"] ∧
    email_template "VALIDATED" "yes" "9741046" "https://www.synapse.org/#!Synapse:syn123"
        [("auc", ["0.91"])] "" = Except.error PyErr.typeError :=
  ⟨rfl, rfl⟩

/-- C4: `get_participant_id` always returns a single-element list: the
team identifier when one is present (team takes precedence over the user
identifier), otherwise the user identifier, otherwise a single undefined
entry.  ("Present" means the `.get` lookup yields an actual identifier; an
actual identifier is a non-empty string, which is what Python's `or`
tests.) -/
theorem get_participant_id_single_element
    (syn : SynapseService) (sid : String) (sub : SubmissionRecord)
    (hsub : syn.getSubmission sid = Except.ok sub) :
    (∀ t, sub.teamId = some t → t ≠ "" →
      (get_participant_id syn sid).2 = Except.ok [some t]) ∧
    (∀ u, sub.teamId = none → sub.userId = some u →
      (get_participant_id syn sid).2 = Except.ok [some u]) ∧
    (sub.teamId = none → sub.userId = none →
      (get_participant_id syn sid).2 = Except.ok [none]) := by
  refine ⟨?_, ?_, ?_⟩
  · intro t ht htne
    simp [get_participant_id, hsub, pyOr, ht, htne, Except.map]
  · intro u ht hu
    simp [get_participant_id, hsub, pyOr, ht, hu, Except.map]
  · intro ht hu
    simp [get_participant_id, hsub, pyOr, ht, hu, Except.map]

/-- A concrete submission whose submitter is a team (both identifiers
recorded). -/
def subBoth : SubmissionRecord :=
  { teamId := some "3325434", userId := some "1234567", evaluationId := some "9615379" }

/-- A service used to witness C4. -/
def synParticipant : SynapseService :=
  { getSubmission := fun _ => Except.ok subBoth
    getSubmissionStatus := fun _ => Except.error (PyErr.clientError "unused")
    getEvaluation := fun _ => Except.error (PyErr.clientError "unused")
    sendMessage := fun _ _ _ => Except.ok () }

/-- Witness for C4: with both identifiers recorded, the team identifier is
returned, as a one-element list. -/
theorem get_participant_id_single_element_witness :
    (get_participant_id synParticipant "9741046").2 = Except.ok [some "3325434"] :=
  (get_participant_id_single_element synParticipant "9741046" subBoth rfl).1
    "3325434" rfl (by decide)

/-- C6: the table entry for evaluation `"9615379"` is returned literally
(with no service call), and any evaluation id outside the four-entry table
falls back to `https://www.synapse.org/#!Synapse:<contentSource>` read from
the evaluation record. -/
theorem get_target_link_table_and_fallback (syn : SynapseService) :
    (get_target_link syn (some "9615379")) =
      ([], Except.ok "https://www.synapse.org/#!Synapse:syn52052735/wiki/626195") ∧
    (∀ eid ev cs, lookupStr EVAL_TO_LINK eid = none →
      syn.getEvaluation (some eid) = Except.ok ev →
      ev.contentSource = some cs →
      (get_target_link syn (some eid)).2 =
        Except.ok ("https://www.synapse.org/#!Synapse:" ++ cs)) := by
  constructor
  · rfl
  · intro eid ev cs h1 h2 h3
    simp [get_target_link, h1, h2, h3, pyStr, Except.map]

/-- A service whose evaluations all carry `contentSource = "syn123"`,
used to witness C6. -/
def synLink : SynapseService :=
  { getSubmission := fun _ => Except.error (PyErr.clientError "unused")
    getSubmissionStatus := fun _ => Except.error (PyErr.clientError "unused")
    getEvaluation := fun _ => Except.ok { name := some "RoundA", contentSource := some "syn123" }
    sendMessage := fun _ _ _ => Except.ok () }

/-- Witness for C6: the pre-registered link for `"9615379"`, and the
fallback `.../#!Synapse:syn123` for an unknown id. -/
theorem get_target_link_table_and_fallback_witness :
    (get_target_link synLink (some "9615379")) =
      ([], Except.ok "https://www.synapse.org/#!Synapse:syn52052735/wiki/626195") ∧
    (get_target_link synLink (some "unknown-id")).2 =
      Except.ok "https://www.synapse.org/#!Synapse:syn123" :=
  ⟨(get_target_link_table_and_fallback synLink).1,
   (get_target_link_table_and_fallback synLink).2 "unknown-id"
     { name := some "RoundA", contentSource := some "syn123" } "syn123" rfl rfl rfl⟩

/-- C7: whenever the submission → evaluation id → evaluation name lookup
chain raises, `get_evaluation` swallows the exception, appends the printed
log message to the trace, and yields `none`; when the chain succeeds it
yields the chain's value.  In neither case does it re-raise. -/
theorem get_evaluation_catches_and_logs (syn : SynapseService) (sid : String) :
    (∀ e, (evaluation_chain syn sid).2 = Except.error e →
      get_evaluation syn sid =
        ((evaluation_chain syn sid).1 ++
          [⟨Step.evaluation, Call.printLog (evalLogMsg sid e)⟩], none)) ∧
    (∀ r, (evaluation_chain syn sid).2 = Except.ok r →
      get_evaluation syn sid = ((evaluation_chain syn sid).1, some r)) := by
  constructor
  · intro e he
    unfold get_evaluation
    rcases hc : evaluation_chain syn sid with ⟨t, x⟩
    rw [hc] at he
    cases x with
    | ok v => simp at he
    | error e2 =>
      have he2 : e2 = e := by simpa using he
      subst he2
      simp
  · intro r hr
    unfold get_evaluation
    rcases hc : evaluation_chain syn sid with ⟨t, x⟩
    rw [hc] at hr
    cases x with
    | error e2 => simp at hr
    | ok v =>
      have hv : v = r := by simpa using hr
      subst hv
      simp

/-- A service whose submission lookup fails, to witness C7. -/
def synFail : SynapseService :=
  { getSubmission := fun _ => Except.error (PyErr.clientError "connection reset")
    getSubmissionStatus := fun _ => Except.error (PyErr.clientError "connection reset")
    getEvaluation := fun _ => Except.error (PyErr.clientError "connection reset")
    sendMessage := fun _ _ _ => Except.ok () }

/-- Witness for C7: when the submission lookup fails, `get_evaluation`
prints the log line and yields `none`. -/
theorem get_evaluation_catches_and_logs_witness :
    get_evaluation synFail "9741046" =
      ([⟨Step.evaluation, Call.getSubmission "9741046"⟩,
        ⟨Step.evaluation, Call.printLog
          "An error occurred while retrieving the evaluation for submission 9741046: connection reset"⟩],
       none) :=
  (get_evaluation_catches_and_logs synFail "9741046").1
    (PyErr.clientError "connection reset") rfl

/-- C10: `view_id` is dead input — two invocations of `send_email` that
differ only in `view_id` produce the same trace of external calls and the
same outcome. -/
theorem send_email_ignores_view_id
    (syn : SynapseService) (v1 v2 sid ews : String) :
    send_email syn v1 sid ews = send_email syn v2 sid ews := rfl

/-- On an annotations dictionary with no duplicate keys (every Python dict),
the score comprehension of `get_annotations` keeps exactly the non-reserved
entries, in order, each with its full value list. -/
theorem submission_scores_eq_filter (anns : AnnDict)
    (hnd : (anns.map Prod.fst).Nodup) :
    submission_scores anns =
      anns.filter (fun kv => !(nonScoreKeys.contains kv.1)) := by
  induction anns with
  | nil => rfl
  | cons hd tl ih =>
    obtain ⟨k0, v0⟩ := hd
    simp only [List.map_cons, List.nodup_cons] at hnd
    obtain ⟨hk0, hnd2⟩ := hnd
    have hget0 : dictGet ((k0, v0) :: tl) k0 = some v0 := by
      simp [dictGet, List.find?]
    have htail : (tl.map Prod.fst).filterMap
        (fun key => if nonScoreKeys.contains key then none
          else (dictGet ((k0, v0) :: tl) key).map (fun v => (key, v))) =
        submission_scores tl := by
      unfold submission_scores
      apply List.filterMap_congr
      intro k hk
      have hne : (k0 == k) = false := by
        refine beq_eq_false_iff_ne.mpr ?_
        intro h
        exact hk0 (h ▸ hk)
      simp [dictGet, List.find?, hne]
    by_cases hres : nonScoreKeys.contains k0
    · unfold submission_scores
      simp only [List.map_cons, List.filterMap_cons, hres, ite_true]
      rw [htail, ih hnd2, List.filter_cons]
      simp only [hres, Bool.not_true, Bool.false_eq_true, if_false]
    · unfold submission_scores
      simp only [List.map_cons, List.filterMap_cons, hres, ite_false, hget0,
        Option.map_some]
      rw [htail, ih hnd2, List.filter_cons]
      simp only [Bool.not_eq_true] at hres
      have hnotmem : k0 ∉ nonScoreKeys := fun hmem => by
        simp [List.elem_eq_true_of_mem hmem] at hres
        exact hres hmem
      simp [hres, hnotmem]

/-- C5 (amended): the score mapping produced by `get_annotations` excludes
exactly the four reserved keys and maps every other annotation key to that
annotation's whole value list (the first element is only extracted later,
by `get_score_dict`). -/
theorem get_annotations_score_is_filtered_dict
    (anns : AnnDict) (a : SubmissionAnnotations)
    (hnd : (anns.map Prod.fst).Nodup)
    (hok : annotations_of anns = Except.ok a) :
    a.score = anns.filter (fun kv => !(nonScoreKeys.contains kv.1)) := by
  have hs : a.score = submission_scores anns := by
    cases h1 : pyIndex0 (dictGet anns "validation_status") with
    | error e => simp [annotations_of, h1, Bind.bind, Except.bind] at hok
    | ok st =>
      cases h2 : pyIndex0 (dictGet anns "validation_errors") with
      | error e => simp [annotations_of, h1, h2, Bind.bind, Except.bind] at hok
      | ok rs =>
        simp [annotations_of, h1, h2, Bind.bind, Except.bind] at hok
        rw [← hok]
  rw [hs]
  exact submission_scores_eq_filter anns hnd

/-- A well-formed annotations dictionary with one score entry. -/
def annsGood : AnnDict :=
  [("validation_status", ["VALIDATED"]), ("validation_errors", ["None"]),
   ("auc", ["0.91"])]

/-- Witness for the amended C5: on `annsGood`, the score dict is exactly the
non-reserved entries with their full value lists. -/
theorem get_annotations_score_is_filtered_dict_witness :
    ({ status := "VALIDATED", score := [("auc", ["0.91"])], reason := "None" } :
        SubmissionAnnotations).score =
      annsGood.filter (fun kv => !(nonScoreKeys.contains kv.1)) :=
  get_annotations_score_is_filtered_dict annsGood
    { status := "VALIDATED", score := [("auc", ["0.91"])], reason := "None" }
    (by decide) rfl

/-- The score mapping as claim C5 describes it (modelled from the claim, for
comparison with the code): every non-reserved key mapped to the FIRST
ELEMENT of its annotation value list. -/
def claimed_scores (anns : AnnDict) : List (String × String) :=
  (anns.filter (fun kv => !(nonScoreKeys.contains kv.1))).map
    (fun kv => (kv.1, kv.2.headD ""))

/-- An annotations dictionary whose `auc` annotation has two values. -/
def annsTwo : AnnDict :=
  [("validation_status", ["VALIDATED"]), ("validation_errors", ["None"]),
   ("auc", ["0.91", "0.88"])]

/-- Counterexample to C5 as stated: on `annsTwo`, the code's score mapping
carries the whole value list `["0.91", "0.88"]` for `auc` — still containing
the second element — whereas the claim says the entry holds only the first
element, `"0.91"`. -/
theorem get_annotations_score_not_first_element :
    Except.map SubmissionAnnotations.score (annotations_of annsTwo) =
      Except.ok [("auc", ["0.91", "0.88"])] ∧
    claimed_scores annsTwo = [("auc", "0.91")] ∧
    (["0.91", "0.88"] : List String) ≠ ["0.91"] :=
  ⟨rfl, rfl, by decide⟩

/-- `email_template` can only raise: either `get_score_dict` raises first,
or the `str + list` concatenation of the `("VALIDATED", "yes")` template
value raises `TypeError`. -/
theorem email_template_always_errors (st ews sid link : String)
    (score : AnnDict) (r : String) :
    ∃ e, email_template st ews sid link score r = Except.error e := by
  unfold email_template
  cases h : get_score_dict score with
  | error e => exact ⟨e, rfl⟩
  | ok s => exact ⟨PyErr.typeError, rfl⟩

/-- Every run of `send_email` makes one of five call sequences — it always
starts with the annotations lookup and never gets past the link step — and
always ends in a raised exception. -/
theorem send_email_shape (syn : SynapseService) (v sid ews : String) :
    ((send_email syn v sid ews).1.map Event.step) ∈
      [[Step.annotations],
       [Step.annotations, Step.participant],
       [Step.annotations, Step.participant, Step.evaluation, Step.evaluation],
       [Step.annotations, Step.participant, Step.evaluation, Step.evaluation,
        Step.evaluation],
       [Step.annotations, Step.participant, Step.evaluation, Step.evaluation,
        Step.link]] ∧
    (send_email syn v sid ews).1.head? =
      some ⟨Step.annotations, Call.getSubmissionStatus sid⟩ ∧
    ∃ e, (send_email syn v sid ews).2 = Except.error e := by
  rcases hgss : syn.getSubmissionStatus sid with e0 | d
  · have hres : send_email syn v sid ews =
        ([⟨Step.annotations, Call.getSubmissionStatus sid⟩], Except.error e0) := by
      simp [send_email, get_annotations, hgss, Except.bind]
    rw [hres]
    exact ⟨List.Mem.head _, rfl, e0, rfl⟩
  · rcases han : annotations_of d with e1 | sa
    · have hres : send_email syn v sid ews =
          ([⟨Step.annotations, Call.getSubmissionStatus sid⟩], Except.error e1) := by
        simp [send_email, get_annotations, hgss, han, Except.bind]
      rw [hres]
      exact ⟨List.Mem.head _, rfl, e1, rfl⟩
    · rcases hgs : syn.getSubmission sid with e2 | sub
      · have hres : send_email syn v sid ews =
            ([⟨Step.annotations, Call.getSubmissionStatus sid⟩,
              ⟨Step.participant, Call.getSubmission sid⟩], Except.error e2) := by
          simp [send_email, get_annotations, get_participant_id, hgss, han, hgs,
            Except.bind, Except.map]
        rw [hres]
        exact ⟨List.Mem.tail _ (List.Mem.head _), rfl, e2, rfl⟩
      · rcases hge : syn.getEvaluation sub.evaluationId with e3 | ev
        · have hres : send_email syn v sid ews =
              ([⟨Step.annotations, Call.getSubmissionStatus sid⟩,
                ⟨Step.participant, Call.getSubmission sid⟩,
                ⟨Step.evaluation, Call.getSubmission sid⟩,
                ⟨Step.evaluation, Call.getEvaluation sub.evaluationId⟩,
                ⟨Step.evaluation, Call.printLog (evalLogMsg sid e3)⟩],
               Except.error PyErr.typeError) := by
            simp [send_email, get_annotations, get_participant_id, get_evaluation,
              evaluation_chain, hgss, han, hgs, hge, Except.bind, Except.map]
          rw [hres]
          exact ⟨List.Mem.tail _ (List.Mem.tail _ (List.Mem.tail _ (List.Mem.head _))),
            rfl, PyErr.typeError, rfl⟩
        · obtain ⟨e4, he4⟩ := email_template_always_errors sa.status ews sid
            ("https://www.synapse.org/#!Synapse:" ++ pyStr ev.contentSource)
            sa.score sa.reason
          rcases hlk : sub.evaluationId.bind (lookupStr EVAL_TO_LINK) with _ | link0
          · have hres : send_email syn v sid ews =
                ([⟨Step.annotations, Call.getSubmissionStatus sid⟩,
                  ⟨Step.participant, Call.getSubmission sid⟩,
                  ⟨Step.evaluation, Call.getSubmission sid⟩,
                  ⟨Step.evaluation, Call.getEvaluation sub.evaluationId⟩,
                  ⟨Step.link, Call.getEvaluation sub.evaluationId⟩],
                 Except.error e4) := by
              simp [send_email, get_annotations, get_participant_id, get_evaluation,
                evaluation_chain, get_target_link, hgss, han, hgs, hge, hlk, he4,
                Except.bind, Except.map]
            rw [hres]
            exact ⟨List.Mem.tail _ (List.Mem.tail _ (List.Mem.tail _
              (List.Mem.tail _ (List.Mem.head _)))), rfl, e4, rfl⟩
          · obtain ⟨e5, he5⟩ := email_template_always_errors sa.status ews sid
              link0 sa.score sa.reason
            have hres : send_email syn v sid ews =
                ([⟨Step.annotations, Call.getSubmissionStatus sid⟩,
                  ⟨Step.participant, Call.getSubmission sid⟩,
                  ⟨Step.evaluation, Call.getSubmission sid⟩,
                  ⟨Step.evaluation, Call.getEvaluation sub.evaluationId⟩],
                 Except.error e5) := by
              simp [send_email, get_annotations, get_participant_id, get_evaluation,
                evaluation_chain, get_target_link, hgss, han, hgs, hge, hlk, he5,
                Except.bind, Except.map]
            rw [hres]
            exact ⟨List.Mem.tail _ (List.Mem.tail _ (List.Mem.head _)), rfl, e5, rfl⟩

/-- A trace whose steps avoid `send` filters to nothing at `send`. -/
theorem filter_no_send (t : List Event)
    (h : Step.send ∉ t.map Event.step) :
    t.filter (fun ev => ev.step == Step.send) = [] := by
  induction t with
  | nil => rfl
  | cons a t ih =>
    simp only [List.map_cons, List.mem_cons] at h
    push_neg at h
    obtain ⟨h1, h2⟩ := h
    rw [List.filter_cons]
    have hne : (a.step == Step.send) = false :=
      beq_eq_false_iff_ne.mpr (fun hh => h1 hh.symm)
    simp [hne, ih h2]

/-- C8: no run of `send_email` ever hands a message to the delivery
interface, and every run raises.  (The first half of the claim — zero
messages on a failing run — holds; but the second half is unrealisable:
`email_template` raises `TypeError` on every call, so no successful run
exists and the `syn.sendMessage` call is dead code.) -/
theorem send_email_never_reaches_delivery (syn : SynapseService) (v sid ews : String) :
    (send_email syn v sid ews).1.filter (fun ev => ev.step == Step.send) = [] ∧
    ∃ e, (send_email syn v sid ews).2 = Except.error e := by
  obtain ⟨hmem, -, herr⟩ := send_email_shape syn v sid ews
  refine ⟨?_, herr⟩
  apply filter_no_send
  simp only [List.mem_cons, List.not_mem_nil, or_false] at hmem
  rcases hmem with h | h | h | h | h <;> rw [h] <;> decide

/-- The position of a step in the pipeline order of the source:
annotations, then participant, then evaluation, then link, then render,
then send. -/
def stepIndex : Step → Nat
  | Step.annotations => 0
  | Step.participant => 1
  | Step.evaluation => 2
  | Step.link => 3
  | Step.render => 4
  | Step.send => 5

/-- C9 (amended): the external-service steps of `send_email` execute
strictly in the sequence annotations → participant → evaluation → link →
render → send — every call of an earlier step precedes every call of a
later step, and the very first call is always the annotations lookup.
(The spec's stated order, participant before annotations, is reversed.) -/
theorem send_email_steps_in_order (syn : SynapseService) (v sid ews : String) :
    List.Pairwise (fun a b : Event => stepIndex a.step ≤ stepIndex b.step)
      (send_email syn v sid ews).1 ∧
    (send_email syn v sid ews).1.head? =
      some ⟨Step.annotations, Call.getSubmissionStatus sid⟩ := by
  obtain ⟨hmem, hhead, -⟩ := send_email_shape syn v sid ews
  refine ⟨?_, hhead⟩
  have hp : List.Pairwise (fun a b : Step => stepIndex a ≤ stepIndex b)
      ((send_email syn v sid ews).1.map Event.step) := by
    simp only [List.mem_cons, List.not_mem_nil, or_false] at hmem
    rcases hmem with h | h | h | h | h <;> rw [h] <;> decide
  exact (List.pairwise_map (f := Event.step)).mp hp

/-- A fully healthy service: submission by team `3325434` in evaluation
`9615379`, validated with one score annotation. -/
def synOk : SynapseService :=
  { getSubmission := fun _ => Except.ok subBoth
    getSubmissionStatus := fun _ => Except.ok annsGood
    getEvaluation := fun _ =>
      Except.ok { name := some "RoundA", contentSource := some "syn52052735" }
    sendMessage := fun _ _ _ => Except.ok () }

/-- Counterexample to C9 as stated: even on a fully healthy service, the
first two external calls of `send_email` are the annotations lookup and
then the participant lookup — not participant first, as the claim orders
them. -/
theorem send_email_annotations_before_participant :
    ((send_email synOk "syn999" "9741046" "yes").1.map Event.step).take 2 =
      [Step.annotations, Step.participant] ∧
    ((send_email synOk "syn999" "9741046" "yes").1.map Event.step).take 2 ≠
      [Step.participant, Step.annotations] :=
  ⟨rfl, by decide⟩
